import Mathlib

/-!
Verification development for the market_analyser news pipeline
(`src/scripts/news_fetcher.py` and collaborators).

The Python source is shallowly embedded: dictionaries become structures with
optional fields (`Option` marks a key that may be absent), the relational
store becomes a list of inserted rows, wall-clock time and HTTP responses
become explicit parameters, and every function is a pure Lean function
mirroring the source control flow.

The repository ships an older revision of `news_fetcher.py` under
`scripts/` together with callers (`worker/app.py`, `scripts/onboarding_agent.py`,
`scripts/config.py`) written against a newer revision of the same module
(extra keyword arguments such as `org_id`, `job_id`, `industry_keywords`,
`vip_competitors`, and an `impact_score` field in the prompt template).
Where a behaviour is decided only by that missing newer revision, the
definition is modelled from the spec and says so in its doc comment.
-/

namespace MarketAnalyser

/-- A UTC instant: calendar date plus seconds within the day.
Dates parsed from a `YYYY-MM-DD` string sit at midnight (`tod = 0`). -/
structure DateTime where
  year : Nat
  month : Nat
  day : Nat
  tod : Nat
  deriving DecidableEq, Repr

/-- Lexicographic strict order on instants, mirroring Python's comparison of
timezone-aware datetimes. -/
def dtLtB (a b : DateTime) : Bool :=
  if a.year ≠ b.year then a.year < b.year
  else if a.month ≠ b.month then a.month < b.month
  else if a.day ≠ b.day then a.day < b.day
  else a.tod < b.tod

/-- `datetime.datetime(2025, 1, 1, tzinfo=utc)`: the historical epoch cutoff
used by `save_news_item`. -/
def cutoff2025 : DateTime := ⟨2025, 1, 1, 0⟩

/-- Characters removed by the control-character regex
`[\x00-\x08\x0b\x0c\x0e-\x1f\x7f-\x9f]` in `sanitize_text`. -/
def isStrippedCtrl (c : Char) : Bool :=
  let n := c.toNat
  (n ≤ 0x08) || n = 0x0b || n = 0x0c || (0x0e ≤ n && n ≤ 0x1f) ||
    (0x7f ≤ n && n ≤ 0x9f)

/-- The typographic-punctuation replacement table of `sanitize_text`:
curly quotes to ASCII quotes, dashes to hyphen, ellipsis to three dots,
non-breaking space to space.  Characters not in the table map to themselves. -/
def replaceChar (c : Char) : List Char :=
  if c = Char.ofNat 0x2018 ∨ c = Char.ofNat 0x2019 then [Char.ofNat 0x27]
  else if c = Char.ofNat 0x201c ∨ c = Char.ofNat 0x201d then [Char.ofNat 0x22]
  else if c = Char.ofNat 0x2013 ∨ c = Char.ofNat 0x2014 then [Char.ofNat 0x2d]
  else if c = Char.ofNat 0x2026 then [Char.ofNat 0x2e, Char.ofNat 0x2e, Char.ofNat 0x2e]
  else if c = Char.ofNat 0xa0 then [Char.ofNat 0x20]
  else [c]

/-- Python's `str.strip()` on the ASCII text left after sanitization:
drop whitespace from both ends. -/
def trimCharList (l : List Char) : List Char :=
  ((l.dropWhile Char.isWhitespace).reverse.dropWhile Char.isWhitespace).reverse

/-- Python's slicing `s[:n]`: the first `n` characters. -/
def strTake (s : String) (n : Nat) : String :=
  String.mk (s.data.take n)

/-- `sanitize_text`: strip control characters, normalize typographic
punctuation, drop all non-ASCII characters (`encode('ascii','ignore')`),
then strip surrounding whitespace. -/
def sanitizeText (s : String) : String :=
  let l1 := s.data.filter (fun c => !(isStrippedCtrl c))
  let l2 := (l1.map replaceChar).flatten
  let l3 := l2.filter (fun c => c.toNat < 128)
  String.mk (trimCharList l3)

/-- Is `sub` an initial segment of `l`? -/
def isPrefixList : List Char → List Char → Bool
  | [], _ => true
  | _ :: _, [] => false
  | a :: as, b :: bs => a = b && isPrefixList as bs

/-- Does `sub` occur contiguously anywhere in `l`? -/
def containsSubList (sub l : List Char) : Bool :=
  match l with
  | [] => isPrefixList sub []
  | _ :: rest => isPrefixList sub l || containsSubList sub rest

/-- Python's `sub in s` substring test. -/
def containsStr (s sub : String) : Bool :=
  containsSubList sub.data s.data

/-- One extracted news event as handed to `save_news_item` — a JSON
dictionary from the model, so every field may be absent (`none`).
`date` distinguishes a missing key (`none`) from a present but unparsable
string (`some none`): `save_news_item` gives the two different defaults.
`impact` is only consulted by the spec-modelled newer save path. -/
structure NewsItem where
  sourceUrl : Option String
  title : Option String
  summary : Option String
  eventType : Option String
  region : Option String
  threatLevel : Option Int
  impact : Option Int
  date : Option (Option DateTime)
  searchRegion : Option String
  deriving DecidableEq, Repr

/-- One row of the `CompetitorNews` table as inserted by `save_news_item`.
The generated cuid primary key is omitted (it is random and never read back
by the pipeline).  `impact` is `none` for rows written by the src revision,
whose INSERT has no impact column. -/
structure StoredNews where
  competitorId : String
  eventType : String
  date : DateTime
  title : String
  summary : String
  threatLevel : Int
  sourceUrl : String
  isRead : Bool
  isStarred : Bool
  extractedAt : DateTime
  region : String
  impact : Option Int
  deriving DecidableEq, Repr

/-- The news table, newest row first. -/
abbrev NewsStore := List StoredNews

/-- `check_existing_url`: is the URL present anywhere in the store? -/
def checkExistingUrl (store : NewsStore) (url : String) : Prop :=
  ∃ r ∈ store, r.sourceUrl = url

instance (store : NewsStore) (url : String) : Decidable (checkExistingUrl store url) := by
  unfold checkExistingUrl; infer_instance

/-- The `(competitorId, title)` duplicate query of `save_news_item`. -/
def checkExistingTitle (store : NewsStore) (cid title : String) : Prop :=
  ∃ r ∈ store, r.competitorId = cid ∧ r.title = title

instance (store : NewsStore) (cid title : String) : Decidable (checkExistingTitle store cid title) := by
  unfold checkExistingTitle; infer_instance

/-- The date `save_news_item` starts from: an explicit parsed `YYYY-MM-DD`
string at midnight; `now` when the string does not parse; midnight of
`now`'s date when the key is absent (the default is `now.strftime('%Y-%m-%d')`,
which is then parsed back at midnight). -/
def initialNewsDate (item : NewsItem) (now : DateTime) : DateTime :=
  match item.date with
  | none => ⟨now.year, now.month, now.day, 0⟩
  | some none => now
  | some (some d) => d

/-- The row built by `save_news_item` just before the INSERT. -/
def mkStoredNews (cid : String) (item : NewsItem) (now newsDate : DateTime)
    (threat : Int) (sourceUrl : String) (impact : Option Int) : StoredNews :=
  { competitorId := cid
    eventType := strTake (sanitizeText (item.eventType.getD "Unknown")) 100
    date := newsDate
    title := strTake (sanitizeText (item.title.getD "Untitled")) 200
    summary := strTake (sanitizeText (item.summary.getD "")) 1000
    threatLevel := threat
    sourceUrl := sourceUrl
    isRead := false
    isStarred := false
    extractedAt := now
    region := item.region.getD "GLOBAL"
    impact := impact }

/-- `save_news_item(competitor_id, news_item)` from
`src/scripts/news_fetcher.py` (lines 640-755), with the wall clock `now`
and the database state passed explicitly.  Returns the new store plus the
`(success, reason)` pair the Python function returns.

Control flow, in source order: sanitize the URL and reject empty or
`example.com` placeholders; reject a URL already anywhere in the store;
reject an identical `(competitorId, title)` pair; coerce and clamp the
threat level to `[1,5]`; parse the date; clamp a future date to `now`;
reject a pre-2025 date unless the item's provenance tag is
`gemini_search`, in which case the date is kept, coerced to `now` only
when its year is below 2024; insert the row. -/
def saveNewsItem (cid : String) (item : NewsItem) (store : NewsStore)
    (now : DateTime) : NewsStore × Bool × String :=
  let sourceUrl := sanitizeText (item.sourceUrl.getD "")
  if sourceUrl = "" ∨ containsStr sourceUrl "example.com" then
    (store, false, "invalid_url")
  else if checkExistingUrl store sourceUrl then
    (store, false, "duplicate_url")
  else
    let titleCheck := strTake (sanitizeText (item.title.getD "Untitled")) 200
    if checkExistingTitle store cid titleCheck then
      (store, false, "duplicate_title")
    else
      let threat : Int := max 1 (min 5 (item.threatLevel.getD 2))
      let newsDate0 := initialNewsDate item now
      let newsDate1 := if dtLtB now newsDate0 then now else newsDate0
      if dtLtB newsDate1 cutoff2025 ∧ item.searchRegion ≠ some "gemini_search" then
        (store, false, "pre_2025")
      else
        let newsDate2 :=
          if dtLtB newsDate1 cutoff2025 ∧ newsDate1.year < 2024 then now
          else newsDate1
        (mkStoredNews cid item now newsDate2 threat sourceUrl none :: store,
          true, "saved")

/-- `save_news_item` as extended by the newer revision of the module.
Modelled from the spec: the src revision's INSERT has no impact column,
but `scripts/config.py` prompts the model for an `impact_score` (0-100)
and the spec's Persistence Gate says "impact score, if present, clamped
to [0,100]" and lists it as a persisted `NewsEvent` field.  Identical to
`saveNewsItem` except that a present impact score is clamped to `[0,100]`
and stored on the inserted row. -/
def saveNewsItemFull (cid : String) (item : NewsItem) (store : NewsStore)
    (now : DateTime) : NewsStore × Bool × String :=
  let sourceUrl := sanitizeText (item.sourceUrl.getD "")
  if sourceUrl = "" ∨ containsStr sourceUrl "example.com" then
    (store, false, "invalid_url")
  else if checkExistingUrl store sourceUrl then
    (store, false, "duplicate_url")
  else
    let titleCheck := strTake (sanitizeText (item.title.getD "Untitled")) 200
    if checkExistingTitle store cid titleCheck then
      (store, false, "duplicate_title")
    else
      let threat : Int := max 1 (min 5 (item.threatLevel.getD 2))
      let impact : Option Int := item.impact.map (fun i => max 0 (min 100 i))
      let newsDate0 := initialNewsDate item now
      let newsDate1 := if dtLtB now newsDate0 then now else newsDate0
      if dtLtB newsDate1 cutoff2025 ∧ item.searchRegion ≠ some "gemini_search" then
        (store, false, "pre_2025")
      else
        let newsDate2 :=
          if dtLtB newsDate1 cutoff2025 ∧ newsDate1.year < 2024 then now
          else newsDate1
        (mkStoredNews cid item now newsDate2 threat sourceUrl impact :: store,
          true, "saved")

/-- A raw article as produced by either provider adapter: a normalized
search-result dictionary.  A missing `link` key is the empty string
(every consumer reads it with `.get('link', '')`). -/
structure Article where
  title : String
  link : String
  snippet : String
  deriving DecidableEq, Repr

/-- The URL-deduplication loop at the end of `gather_all_articles`:
walk the concatenated list keeping each article whose link is non-empty
and not seen before. -/
def dedupeByLink : List Article → List String → List Article
  | [], _ => []
  | a :: rest, seen =>
    if a.link ≠ "" ∧ a.link ∉ seen then
      a :: dedupeByLink rest (a.link :: seen)
    else
      dedupeByLink rest seen

/-- `gather_all_articles(competitor, days_back, regions)` with the three
adapter result lists passed explicitly (each adapter is an external HTTP
service; an adapter that raised is its caught empty list).  The deep
Gemini task is created only when the competitor has a non-empty website;
its results are appended to the Gemini list when their URL is not among
the Gemini URLs; finally the Serper list followed by the Gemini list is
deduplicated by URL, first seen wins. -/
def gatherAllArticles (website : String) (serperResults geminiResults
    deepResults : List Article) : List Article :=
  let deepUsed := if website ≠ "" then deepResults else []
  let gemini2 :=
    if deepUsed ≠ [] then
      geminiResults ++
        deepUsed.filter (fun a => !((geminiResults.map (·.link)).contains a.link))
    else geminiResults
  dedupeByLink (serperResults ++ gemini2) []

/-! ## Serper request construction (sync and async keyword search) -/

/-- One Serper HTTP payload: `{"q", "gl", "hl", "num"}` plus the optional
`tbs` time-window token. -/
structure SerperRequest where
  q : String
  gl : String
  hl : String
  num : Nat
  tbs : Option String
  deriving DecidableEq, Repr

/-- The `REGIONS` table of `news_fetcher.py` with the `.get(region,
REGIONS['global'])` fallback: region key to `(gl, hl)`. -/
def regionsMap (r : String) : String × String :=
  if r = "global" then ("us", "en")
  else if r = "mena" then ("ae", "en")
  else if r = "europe" then ("gb", "en")
  else if r = "ksa" then ("sa", "en")
  else ("us", "en")

/-- A native-language search configuration dict (`gl`, `hl`, `_label`). -/
structure NativeRegion where
  gl : String
  hl : String
  label : String
  deriving DecidableEq, Repr

/-- Drop everything from the first `(` through the first following `)`,
repeatedly; an unclosed `(` is left in place (the regex needs a closing
parenthesis to match).  Fuel-indexed to make the skip past a group
structural. -/
def stripParensGo : Nat → List Char → List Char
  | 0, l => l
  | _ + 1, [] => []
  | fuel + 1, c :: rest =>
    if c = '(' then
      match (rest.dropWhile (fun x => x ≠ ')')) with
      | [] => c :: stripParensGo fuel rest
      | _ :: r2 => stripParensGo fuel r2
    else if c.isWhitespace ∧ (rest.dropWhile Char.isWhitespace).head? = some '(' ∧
        ((rest.dropWhile Char.isWhitespace).drop 1).contains ')' then
      stripParensGo fuel ((rest.dropWhile Char.isWhitespace))
    else
      c :: stripParensGo fuel rest

/-- `re.sub(r'\s*\(.*?\)', '', name).strip()`: remove parenthetical
annotations such as "(formerly X)" together with the whitespace run in
front of them, then strip. -/
def stripParens (s : String) : String :=
  String.mk (trimCharList (stripParensGo s.data.length s.data))

/-- The four query templates shared by `search_news` and
`search_news_async`. -/
def mkQueries (searchName : String) : List String :=
  [ "\"" ++ searchName ++ "\" contract OR deal OR partnership OR launch OR expansion"
  , "\"" ++ searchName ++ "\" mall OR airport OR hospital OR university"
  , "\"" ++ searchName ++ "\" wayfinding OR \"digital signage\" OR kiosk"
  , "\"" ++ searchName ++ "\" \"virtual assistant\" OR \"directory\" OR screens" ]

/-- The time-window bucket of `search_news` (`tbs_val`): `days_back` of 0
or `None` is falsy and yields no token; then the coarsest enclosing
bucket among 1 day, 1 week, 1 month, 1 year; beyond 365 days no token. -/
def tbsFor (daysBack : Option Nat) : Option String :=
  match daysBack with
  | none => none
  | some n =>
    if n = 0 then none
    else if n ≤ 1 then some "qdr:d"
    else if n ≤ 7 then some "qdr:w"
    else if n ≤ 30 then some "qdr:m"
    else if n ≤ 365 then some "qdr:y"
    else none

/-- The payload built by `search_serper` / `search_serper_async` for a
string region key, given the `tbs_val` argument it was called with. -/
def serperPayload (query region : String) (num : Nat)
    (tbsVal : Option String) : SerperRequest :=
  { q := query
    gl := (regionsMap region).1
    hl := (regionsMap region).2
    num := num
    tbs := tbsVal }

/-- The payload built for a native-language region dict. -/
def serperPayloadNative (query : String) (nr : NativeRegion) (num : Nat)
    (tbsVal : Option String) : SerperRequest :=
  { q := query
    gl := nr.gl
    hl := nr.hl
    num := num
    tbs := tbsVal }

/-- The full grid of Serper payloads `search_news` (sync) builds: every
query for every English region, then every query for the optional native
region, each carrying `tbs_val` computed from `days_back`.  (The sync
loop stops early once 25 articles accumulate; the issued requests are a
prefix of this grid, so a property of every payload here covers every
payload actually sent.) -/
def searchNewsRequests (competitorName : String) (regions : List String)
    (daysBack : Option Nat) (native : Option NativeRegion) : List SerperRequest :=
  let searchName := stripParens competitorName
  let queries := mkQueries searchName
  let tbsVal := tbsFor daysBack
  (regions.flatMap (fun r => queries.map (fun q => serperPayload q r 10 tbsVal))) ++
    (match native with
     | some nr => queries.map (fun q => serperPayloadNative q nr 10 tbsVal)
     | none => [])

/-- The grid of Serper payloads `search_news_async` builds: the same
`(query, region)` pairs, but every call is
`search_serper_async(q, 'news', r, 10)` — `tbs_val` is never passed, so
every payload is sent without a time-window token.  `daysBack` is
accepted and unused, exactly as in the source. -/
def searchNewsAsyncRequests (competitorName : String) (regions : List String)
    (daysBack : Option Nat) (native : Option NativeRegion) : List SerperRequest :=
  let searchName := stripParens competitorName
  let queries := mkQueries searchName
  (regions.flatMap (fun r => queries.map (fun q => serperPayload q r 10 none))) ++
    (match native with
     | some nr => queries.map (fun q => serperPayloadNative q nr 10 none)
     | none => [])

/-! ## Result caches -/

/-- One on-disk cache file: `{'cached_at': <timestamp>, 'results': [...]}`.
Timestamps are seconds as integers (`time.time()`). -/
structure CacheEntry where
  cachedAt : Int
  results : List Article
  deriving DecidableEq, Repr

/-- `SERPER_CACHE_TTL = 7 * 24 * 3600`. -/
def serperCacheTTL : Int := 7 * 24 * 3600

/-- `GEMINI_CACHE_TTL = 24 * 3600`. -/
def geminiCacheTTL : Int := 24 * 3600

/-- The Serper cache directory as a map from the key material
`(query, region, search_type)` to the file contents.  `_serper_cache_key`
hashes exactly this triple, and `_cache_get`/`_cache_set` derive the key
the same way, so the triple itself serves as the key. -/
def SerperCache : Type := String × String × String → Option CacheEntry

/-- `_cache_get(query, region, search_type)`: absent file, or an entry
whose age has reached the TTL, is a miss; otherwise the stored results. -/
def cacheGet (c : SerperCache) (now : Int) (query region searchType : String) :
    Option (List Article) :=
  match c (query, region, searchType) with
  | none => none
  | some e => if now - e.cachedAt < serperCacheTTL then some e.results else none

/-- `_cache_set(query, region, search_type, results)`. -/
def cacheSet (c : SerperCache) (now : Int) (query region searchType : String)
    (results : List Article) : SerperCache :=
  fun k => if k = (query, region, searchType) then some ⟨now, results⟩ else c k

/-- Python's `str.lower()` on the competitor name. -/
def lowerStr (s : String) : String :=
  String.mk (s.data.map Char.toLower)

/-- The Gemini cache directory: keyed by the md5 of the lowercased
competitor name, so the lowercased name serves as the key. -/
def GeminiCache : Type := String → Option CacheEntry

/-- `_gemini_cache_get(name)`: same shape as `_cache_get` with a 1-day TTL. -/
def geminiCacheGet (c : GeminiCache) (now : Int) (name : String) :
    Option (List Article) :=
  match c (lowerStr name) with
  | none => none
  | some e => if now - e.cachedAt < geminiCacheTTL then some e.results else none

/-- `_gemini_cache_set(name, results)`. -/
def geminiCacheSet (c : GeminiCache) (now : Int) (name : String)
    (results : List Article) : GeminiCache :=
  fun k => if k = lowerStr name then some ⟨now, results⟩ else c k

/-! ## URL liveness validation

Modelled from the spec: the URL Liveness Validator (spec section 4.4) and
its invocation from the Aggregator (section 4.5 step 4) exist only in the
newer revision of `news_fetcher.py` that `worker/app.py` and
`scripts/onboarding_agent.py` call into; the src revision of
`gather_all_articles` predates it.  The definitions below follow the
spec's words: reject a URL whose path, ignoring a trailing slash, is one
of the generic root-level paths; otherwise consult the existence check
and reject only on an explicit status of at least 400, keeping the
article on any network error (fail-open). -/

/-- The path component of a URL: drop the `http(s)://` scheme, then take
everything from the first `/` of the remainder (empty when there is no
path), ignoring one trailing slash. -/
def urlPath (s : String) : String :=
  let rest :=
    if isPrefixList "https://".data s.data then s.data.drop 8
    else if isPrefixList "http://".data s.data then s.data.drop 7
    else s.data
  let p := rest.dropWhile (fun c => c ≠ '/')
  let p := if p.getLast? = some '/' then p.dropLast else p
  String.mk p

/-- The generic root-level paths of the spec: home (no path after the
trailing-slash strip), `/blog`, `/news`, `/press`, `/media`, `/insights`,
`/resources`. -/
def genericPaths : List String :=
  ["", "/blog", "/news", "/press", "/media", "/insights", "/resources"]

/-- A section-index URL the validator rejects outright. -/
def isGenericPath (p : String) : Bool :=
  genericPaths.contains p

/-- Does one article survive validation?  `check` is the outcome of the
bounded-concurrency existence check: `none` for a network error or
timeout (fail-open, article kept), `some status` for an HTTP reply. -/
def articleAlive (check : String → Option Nat) (a : Article) : Bool :=
  !(isGenericPath (urlPath a.link)) &&
    (match check a.link with
     | none => true
     | some status => decide (status < 400))

/-- `validate(articles) -> subset`. -/
def validateArticles (check : String → Option Nat) (l : List Article) :
    List Article :=
  l.filter (articleAlive check)

/-- The Aggregator with the validation step of the newer revision: the
merged article set is passed through the URL Liveness Validator before
being returned. -/
def gatherValidated (website : String) (serperResults geminiResults
    deepResults : List Article) (check : String → Option Nat) : List Article :=
  validateArticles check
    (gatherAllArticles website serperResults geminiResults deepResults)

/-! ## Extraction outcome and the fallback-of-last-resort

Modelled from the spec: the single-article fallback (spec sections 4.7
and 8) exists only in the newer revision of the per-competitor pipeline;
the src revision of `fetch_news_for_competitor_async` simply returns 0.
The spec fixes the policy: the fallback fires when articles existed and
the Extraction Engine ran and returned zero news items, not when the
model explicitly answered with the no-relevant-news sentinel. -/

/-- What the Extraction Engine hands back for one competitor: the
explicit `{"no_relevant_news": true}` sentinel, or a list of extracted
event items. -/
inductive AnalysisResult where
  | noRelevant : AnalysisResult
  | items : List NewsItem → AnalysisResult
  deriving DecidableEq, Repr

/-- The synthesized minimal low-confidence event: threat level 1, impact
10, event type "General Update", built from one raw article. -/
def fallbackEvent (a : Article) : NewsItem :=
  { sourceUrl := some a.link
    title := some a.title
    summary := some a.snippet
    eventType := some "General Update"
    region := none
    threatLevel := some 1
    impact := some 10
    date := none
    searchRegion := none }

/-- The events a competitor run hands to the Persistence Gate, as a
function of the candidate articles and the Extraction Engine's answer.
The single best raw article is the first of the candidate list.  With no
articles the engine is never invoked and nothing is persisted. -/
def processCompetitorEvents (articles : List Article)
    (analysis : AnalysisResult) : List NewsItem :=
  match articles, analysis with
  | [], _ => []
  | _, AnalysisResult.noRelevant => []
  | a :: _, AnalysisResult.items [] => [fallbackEvent a]
  | _, AnalysisResult.items l => l

/-! ## Lemmas about the Aggregator's URL deduplication -/

lemma dedupeByLink_mem : ∀ (l : List Article) (seen : List String) (a : Article),
    a ∈ dedupeByLink l seen → a ∈ l ∧ a.link ≠ "" ∧ a.link ∉ seen := by
  intro l
  induction l with
  | nil => intro seen a h; simp [dedupeByLink] at h
  | cons b rest ih =>
    intro seen a h
    simp only [dedupeByLink] at h
    split_ifs at h with hc
    · rcases List.mem_cons.mp h with rfl | h2
      · exact ⟨List.mem_cons_self _ _, hc.1, hc.2⟩
      · obtain ⟨h3, h4, h5⟩ := ih _ _ h2
        refine ⟨List.mem_cons_of_mem _ h3, h4, fun hmem => h5 ?_⟩
        exact List.mem_cons_of_mem _ hmem
    · obtain ⟨h3, h4, h5⟩ := ih _ _ h
      exact ⟨List.mem_cons_of_mem _ h3, h4, h5⟩

lemma dedupeByLink_pairwise : ∀ (l : List Article) (seen : List String),
    (dedupeByLink l seen).Pairwise (fun a b => a.link ≠ b.link) := by
  intro l
  induction l with
  | nil => intro seen; simp [dedupeByLink]
  | cons b rest ih =>
    intro seen
    simp only [dedupeByLink]
    split_ifs with hc
    · refine List.Pairwise.cons ?_ (ih _)
      intro a ha heq
      obtain ⟨_, _, h5⟩ := dedupeByLink_mem _ _ _ ha
      apply h5
      rw [← heq]
      exact List.mem_cons_self _ _
    · exact ih _

lemma dedupeByLink_filter_of_seen (u : String) : ∀ (l : List Article)
    (seen : List String), u ∈ seen →
    (dedupeByLink l seen).filter (fun x => x.link == u) = [] := by
  intro l
  induction l with
  | nil => intro seen _; simp [dedupeByLink]
  | cons b rest ih =>
    intro seen h
    simp only [dedupeByLink]
    split_ifs with hc
    · have hb : b.link ≠ u := fun heq => hc.2 (heq ▸ h)
      rw [List.filter_cons]
      simp only [beq_iff_eq, hb, if_false]
      exact ih _ (List.mem_cons_of_mem _ h)
    · exact ih _ h

lemma dedupeByLink_filter (u : String) (hu : u ≠ "") :
    ∀ (l : List Article) (seen : List String), u ∉ seen →
    (dedupeByLink l seen).filter (fun x => x.link == u) =
      (l.filter (fun x => x.link == u)).take 1 := by
  intro l
  induction l with
  | nil => intro seen _; simp [dedupeByLink]
  | cons b rest ih =>
    intro seen h
    simp only [dedupeByLink]
    by_cases hbu : b.link = u
    · rw [if_pos ⟨hbu ▸ hu, hbu ▸ h⟩]
      rw [List.filter_cons, List.filter_cons]
      simp only [beq_iff_eq, hbu, if_true]
      rw [dedupeByLink_filter_of_seen u _ _ (hbu ▸ List.mem_cons_self _ _)]
      simp
    · split_ifs with hc
      · rw [List.filter_cons, List.filter_cons]
        simp only [beq_iff_eq, hbu, if_false]
        refine ih _ ?_
        intro hmem
        rcases List.mem_cons.mp hmem with h1 | h2
        · exact hbu h1.symm
        · exact h h2
      · rw [List.filter_cons]
        simp only [beq_iff_eq, hbu, if_false]
        exact ih _ h

lemma take_one_append {α : Type} (l1 l2 : List α) (h : l1 ≠ []) :
    (l1 ++ l2).take 1 = l1.take 1 := by
  cases l1 <;> simp_all

lemma gatherAllArticles_eq_dedupe (website : String)
    (s g d : List Article) :
    ∃ g2, gatherAllArticles website s g d = dedupeByLink (s ++ g2) [] := by
  unfold gatherAllArticles
  exact ⟨_, rfl⟩

/-- C6: the Aggregator merge is idempotent on URL, and the keyword-search
(Serper) entry wins: whenever a non-empty URL occurs in both the Serper
list and the Gemini list, the merged output of `gather_all_articles`
contains exactly one article with that URL, namely the first Serper entry
carrying it — keyword-search results precede grounded-generation results
in the merge and the first occurrence is kept. -/
theorem c6_merge_idempotent_on_url (website : String)
    (serper gemini deep : List Article) (u : String)
    (hu : u ≠ "")
    (hs : u ∈ serper.map (fun a => a.link))
    (hg : u ∈ gemini.map (fun a => a.link)) :
    (gatherAllArticles website serper gemini deep).filter (fun x => x.link == u) =
      (serper.filter (fun x => x.link == u)).take 1 ∧
    ((gatherAllArticles website serper gemini deep).filter
      (fun x => x.link == u)).length = 1 ∧
    ∀ c ∈ (gatherAllArticles website serper gemini deep).filter
      (fun x => x.link == u), c ∈ serper := by
  obtain ⟨g2, hgather⟩ := gatherAllArticles_eq_dedupe website serper gemini deep
  obtain ⟨a, ha, hau⟩ := List.mem_map.mp hs
  have hafilter : a ∈ serper.filter (fun x => x.link == u) :=
    List.mem_filter.mpr ⟨ha, by simp [hau]⟩
  have hne : serper.filter (fun x => x.link == u) ≠ [] :=
    List.ne_nil_of_mem hafilter
  have hmain : (gatherAllArticles website serper gemini deep).filter
      (fun x => x.link == u) = (serper.filter (fun x => x.link == u)).take 1 := by
    rw [hgather, dedupeByLink_filter u hu _ [] (by simp), List.filter_append,
      take_one_append _ _ hne]
  refine ⟨hmain, ?_, ?_⟩
  · rw [hmain]
    cases hfe : serper.filter (fun x => x.link == u) with
    | nil => exact absurd hfe hne
    | cons x xs => simp
  · intro c hc
    rw [hmain] at hc
    exact (List.mem_filter.mp (List.mem_of_mem_take hc)).1

/-- C6 witness: a concrete URL fed from both adapters survives exactly
once, as the Serper entry. -/
theorem c6_merge_idempotent_on_url_witness :
    (gatherAllArticles "https://a.com"
        [⟨"serper title", "https://x.com/p", "s1"⟩]
        [⟨"gemini title", "https://x.com/p", "s2"⟩]
        []).filter (fun x => x.link == "https://x.com/p") =
      [⟨"serper title", "https://x.com/p", "s1"⟩] := by
  have h := c6_merge_idempotent_on_url "https://a.com"
    [⟨"serper title", "https://x.com/p", "s1"⟩]
    [⟨"gemini title", "https://x.com/p", "s2"⟩]
    [] "https://x.com/p" (by decide) (by decide) (by decide)
  rw [h.1]
  rfl

/-- C10: invariant of the Aggregator's output — every article returned by
`gather_all_articles` has a non-empty link, and the links are pairwise
distinct (articles with a missing or empty URL are dropped by the merge
loop). -/
theorem c10_output_links_nonempty_distinct (website : String)
    (serper gemini deep : List Article) :
    (∀ a ∈ gatherAllArticles website serper gemini deep, a.link ≠ "") ∧
    (gatherAllArticles website serper gemini deep).Pairwise
      (fun a b => a.link ≠ b.link) := by
  obtain ⟨g2, hgather⟩ := gatherAllArticles_eq_dedupe website serper gemini deep
  rw [hgather]
  exact ⟨fun a ha => (dedupeByLink_mem _ _ _ ha).2.1, dedupeByLink_pairwise _ _⟩

/-- C10 witness: on a concrete input with an empty-link article, the
invariant instantiates. -/
theorem c10_output_links_nonempty_distinct_witness :
    (⟨"t1", "https://x.com/p", "s"⟩ : Article).link ≠ "" ∧
    (gatherAllArticles "" [⟨"t1", "https://x.com/p", "s"⟩, ⟨"t2", "", "s"⟩]
      [⟨"t3", "https://y.com/q", "s"⟩] []).Pairwise (fun a b => a.link ≠ b.link) := by
  have h := c10_output_links_nonempty_distinct ""
    [⟨"t1", "https://x.com/p", "s"⟩, ⟨"t2", "", "s"⟩]
    [⟨"t3", "https://y.com/q", "s"⟩] []
  exact ⟨h.1 _ (by decide), h.2⟩

/-- C9: cache round trip and TTL expiry, for both file caches.  A
`set(k, v)` followed by an immediate `get(k)` returns `v`; a stored entry
whose age exceeds its TTL (7 days for Serper entries, 1 day for Gemini
entries) reads as absent even though the file exists; an entry within its
TTL reads as the stored payload. -/
theorem c9_cache_roundtrip_and_ttl :
    (∀ (c : SerperCache) (now : Int) (q r t : String) (v : List Article),
      cacheGet (cacheSet c now q r t v) now q r t = some v) ∧
    (∀ (c : SerperCache) (now : Int) (q r t : String) (e : CacheEntry),
      c (q, r, t) = some e → now - e.cachedAt > serperCacheTTL →
      cacheGet c now q r t = none) ∧
    (∀ (c : SerperCache) (now : Int) (q r t : String) (e : CacheEntry),
      c (q, r, t) = some e → now - e.cachedAt < serperCacheTTL →
      cacheGet c now q r t = some e.results) ∧
    (∀ (c : GeminiCache) (now : Int) (name : String) (v : List Article),
      geminiCacheGet (geminiCacheSet c now name v) now name = some v) ∧
    (∀ (c : GeminiCache) (now : Int) (name : String) (e : CacheEntry),
      c (lowerStr name) = some e → now - e.cachedAt > geminiCacheTTL →
      geminiCacheGet c now name = none) ∧
    (∀ (c : GeminiCache) (now : Int) (name : String) (e : CacheEntry),
      c (lowerStr name) = some e → now - e.cachedAt < geminiCacheTTL →
      geminiCacheGet c now name = some e.results) := by
  refine ⟨?_, ?_, ?_, ?_, ?_, ?_⟩
  · intro c now q r t v
    simp [cacheGet, cacheSet, serperCacheTTL]
  · intro c now q r t e he hage
    simp only [cacheGet, he]
    rw [if_neg (by omega)]
  · intro c now q r t e he hage
    simp only [cacheGet, he]
    rw [if_pos hage]
  · intro c now name v
    simp [geminiCacheGet, geminiCacheSet, geminiCacheTTL]
  · intro c now name e he hage
    simp only [geminiCacheGet, he]
    rw [if_neg (by omega)]
  · intro c now name e he hage
    simp only [geminiCacheGet, he]
    rw [if_pos hage]

/-- C9 witness: concrete round trip, a fresh hit, and an expired miss on
both caches. -/
theorem c9_cache_roundtrip_and_ttl_witness :
    cacheGet (cacheSet (fun _ => none) 1000 "q" "global" "news" []) 1000
      "q" "global" "news" = some [] ∧
    cacheGet (fun k => if k = ("q", "global", "news") then
        some ⟨0, []⟩ else none) (7 * 24 * 3600 + 1) "q" "global" "news" = none ∧
    geminiCacheGet (fun k => if k = "acme" then some ⟨0, []⟩ else none)
      (24 * 3600 + 1) "Acme" = none ∧
    geminiCacheGet (fun k => if k = "acme" then some ⟨0, []⟩ else none)
      5 "Acme" = some [] := by
  refine ⟨c9_cache_roundtrip_and_ttl.1 _ _ _ _ _ _, ?_, ?_, ?_⟩
  · exact c9_cache_roundtrip_and_ttl.2.1 _ _ _ _ _ ⟨0, []⟩ (by decide)
      (by norm_num [serperCacheTTL])
  · exact c9_cache_roundtrip_and_ttl.2.2.2.2.1 _ _ _ ⟨0, []⟩
      (by decide) (by norm_num [geminiCacheTTL])
  · exact c9_cache_roundtrip_and_ttl.2.2.2.2.2 _ _ _ ⟨0, []⟩
      (by decide) (by norm_num [geminiCacheTTL])

/-! ## Lemmas about the Persistence Gate -/

lemma saveNewsItem_dup_url (cid : String) (item : NewsItem) (store : NewsStore)
    (now : DateTime)
    (hne : sanitizeText (item.sourceUrl.getD "") ≠ "")
    (hco : containsStr (sanitizeText (item.sourceUrl.getD "")) "example.com" = false)
    (hdup : checkExistingUrl store (sanitizeText (item.sourceUrl.getD ""))) :
    saveNewsItem cid item store now = (store, false, "duplicate_url") := by
  have hinv : ¬(sanitizeText (item.sourceUrl.getD "") = "" ∨
      containsStr (sanitizeText (item.sourceUrl.getD "")) "example.com" = true) := by
    rintro (h | h)
    · exact hne h
    · rw [hco] at h; cases h
  unfold saveNewsItem
  dsimp only
  rw [if_neg hinv, if_pos hdup]

lemma saveNewsItem_dup_title (cid : String) (item : NewsItem) (store : NewsStore)
    (now : DateTime)
    (hne : sanitizeText (item.sourceUrl.getD "") ≠ "")
    (hco : containsStr (sanitizeText (item.sourceUrl.getD "")) "example.com" = false)
    (hnodup : ¬checkExistingUrl store (sanitizeText (item.sourceUrl.getD "")))
    (hti : checkExistingTitle store cid
      (strTake (sanitizeText (item.title.getD "Untitled")) 200)) :
    saveNewsItem cid item store now = (store, false, "duplicate_title") := by
  have hinv : ¬(sanitizeText (item.sourceUrl.getD "") = "" ∨
      containsStr (sanitizeText (item.sourceUrl.getD "")) "example.com" = true) := by
    rintro (h | h)
    · exact hne h
    · rw [hco] at h; cases h
  unfold saveNewsItem
  dsimp only
  rw [if_neg hinv, if_neg hnodup, if_pos hti]

lemma saveNewsItem_saved_shape (cid : String) (item : NewsItem)
    (store : NewsStore) (now : DateTime)
    (h : (saveNewsItem cid item store now).2.1 = true) :
    ∃ d, saveNewsItem cid item store now =
      (mkStoredNews cid item now d (max 1 (min 5 (item.threatLevel.getD 2)))
          (sanitizeText (item.sourceUrl.getD "")) none :: store,
        true, "saved") ∧
      sanitizeText (item.sourceUrl.getD "") ≠ "" ∧
      containsStr (sanitizeText (item.sourceUrl.getD "")) "example.com" = false ∧
      ¬checkExistingUrl store (sanitizeText (item.sourceUrl.getD "")) ∧
      ¬checkExistingTitle store cid
        (strTake (sanitizeText (item.title.getD "Untitled")) 200) := by
  unfold saveNewsItem at h ⊢
  dsimp only at h ⊢
  split_ifs at h ⊢ with h1 h2 h3 h4 h5 h6 <;>
    first
      | exact absurd h Bool.false_ne_true
      | (push_neg at h1
         exact ⟨_, rfl, h1.1, Bool.eq_false_iff.mpr h1.2, h2, h3⟩)

/-- C1: behaviour of the Persistence Gate `save_news_item` on the four
scenarios of the spec's testable properties.  (1) An event whose sanitized
source URL is valid but already present anywhere in the store is rejected
with `duplicate_url`, leaving the store unchanged; hence (2) saving the
same event twice yields `(True, "saved")` then `(False, "duplicate_url")`.
(3) After a successful save, a second event with a different, unseen URL
but the identical title for the same competitor is rejected with
`duplicate_title`.  (4) A threat level of 9 is stored as 5.  (5) An event
dated before the 2025-01-01 cutoff whose provenance tag is not
`gemini_search` is rejected with `pre_2025` and not inserted. -/
theorem c1_persistence_gate :
    (∀ (cid : String) (item : NewsItem) (store : NewsStore) (now : DateTime),
      sanitizeText (item.sourceUrl.getD "") ≠ "" →
      containsStr (sanitizeText (item.sourceUrl.getD "")) "example.com" = false →
      checkExistingUrl store (sanitizeText (item.sourceUrl.getD "")) →
      saveNewsItem cid item store now = (store, false, "duplicate_url")) ∧
    (∀ (cid : String) (item : NewsItem) (store : NewsStore) (now : DateTime),
      (saveNewsItem cid item store now).2 = (true, "saved") →
      (saveNewsItem cid item (saveNewsItem cid item store now).1 now).2 =
        (false, "duplicate_url")) ∧
    (∀ (cid : String) (item1 item2 : NewsItem) (store : NewsStore) (now : DateTime),
      (saveNewsItem cid item1 store now).2 = (true, "saved") →
      item2.title = item1.title →
      sanitizeText (item2.sourceUrl.getD "") ≠ "" →
      containsStr (sanitizeText (item2.sourceUrl.getD "")) "example.com" = false →
      ¬checkExistingUrl (saveNewsItem cid item1 store now).1
        (sanitizeText (item2.sourceUrl.getD "")) →
      (saveNewsItem cid item2 (saveNewsItem cid item1 store now).1 now).2 =
        (false, "duplicate_title")) ∧
    (∀ (cid : String) (item : NewsItem) (store : NewsStore) (now : DateTime),
      item.threatLevel = some 9 →
      (saveNewsItem cid item store now).2.1 = true →
      ∃ row, (saveNewsItem cid item store now).1 = row :: store ∧
        row.threatLevel = 5) ∧
    (∀ (cid : String) (item : NewsItem) (store : NewsStore) (now : DateTime)
      (d : DateTime),
      item.date = some (some d) →
      dtLtB d cutoff2025 = true →
      dtLtB now d = false →
      item.searchRegion ≠ some "gemini_search" →
      sanitizeText (item.sourceUrl.getD "") ≠ "" →
      containsStr (sanitizeText (item.sourceUrl.getD "")) "example.com" = false →
      ¬checkExistingUrl store (sanitizeText (item.sourceUrl.getD "")) →
      ¬checkExistingTitle store cid
        (strTake (sanitizeText (item.title.getD "Untitled")) 200) →
      saveNewsItem cid item store now = (store, false, "pre_2025")) := by
  refine ⟨saveNewsItem_dup_url, ?_, ?_, ?_, ?_⟩
  · intro cid item store now h
    have hb : (saveNewsItem cid item store now).2.1 = true := by rw [h]
    obtain ⟨d, hsave, hne, hco, _, _⟩ := saveNewsItem_saved_shape cid item store now hb
    have hst : (saveNewsItem cid item store now).1 =
        mkStoredNews cid item now d (max 1 (min 5 (item.threatLevel.getD 2)))
          (sanitizeText (item.sourceUrl.getD "")) none :: store := by
      rw [hsave]
    rw [hst, saveNewsItem_dup_url cid item _ now hne hco
      ⟨_, List.mem_cons_self _ _, rfl⟩]
  · intro cid item1 item2 store now h htitle hne hco hnodup
    have hb : (saveNewsItem cid item1 store now).2.1 = true := by rw [h]
    obtain ⟨d, hsave, _, _, _, _⟩ := saveNewsItem_saved_shape cid item1 store now hb
    have hst : (saveNewsItem cid item1 store now).1 =
        mkStoredNews cid item1 now d (max 1 (min 5 (item1.threatLevel.getD 2)))
          (sanitizeText (item1.sourceUrl.getD "")) none :: store := by
      rw [hsave]
    rw [hst] at hnodup ⊢
    rw [saveNewsItem_dup_title cid item2 _ now hne hco hnodup
      ⟨_, List.mem_cons_self _ _, rfl, by simp [mkStoredNews, htitle]⟩]
  · intro cid item store now hthreat h
    obtain ⟨d, hsave, _, _, _, _⟩ := saveNewsItem_saved_shape cid item store now h
    refine ⟨_, by rw [hsave], ?_⟩
    simp only [mkStoredNews, hthreat, Option.getD_some]
    decide
  · intro cid item store now d hdate hcut hfut hregion hne hco hnodup hnotitle
    have hinv : ¬(sanitizeText (item.sourceUrl.getD "") = "" ∨
        containsStr (sanitizeText (item.sourceUrl.getD "")) "example.com" = true) := by
      rintro (h | h)
      · exact hne h
      · rw [hco] at h; cases h
    have hinit : initialNewsDate item now = d := by
      simp [initialNewsDate, hdate]
    have hnf : ¬(dtLtB now d = true) := by
      intro hh
      rw [hfut] at hh
      exact Bool.false_ne_true hh
    unfold saveNewsItem
    dsimp only
    rw [hinit, if_neg hinv, if_neg hnodup, if_neg hnotitle, if_neg hnf,
      if_pos ⟨hcut, hregion⟩]

/-- C1 witness: the five scenarios instantiated on concrete events. -/
theorem c1_persistence_gate_witness :
    (saveNewsItem "c1"
      { sourceUrl := some "https://n.org/a", title := some "T1",
        summary := some "s", eventType := some "Partnership",
        region := some "EUROPE", threatLevel := some 9, impact := none,
        date := some (some ⟨2025, 3, 1, 0⟩), searchRegion := some "global" }
      [] ⟨2025, 6, 1, 43200⟩).2 = (true, "saved") ∧
    (saveNewsItem "c1"
      { sourceUrl := some "https://n.org/a", title := some "T1",
        summary := some "s", eventType := some "Partnership",
        region := some "EUROPE", threatLevel := some 9, impact := none,
        date := some (some ⟨2025, 3, 1, 0⟩), searchRegion := some "global" }
      (saveNewsItem "c1"
        { sourceUrl := some "https://n.org/a", title := some "T1",
          summary := some "s", eventType := some "Partnership",
          region := some "EUROPE", threatLevel := some 9, impact := none,
          date := some (some ⟨2025, 3, 1, 0⟩), searchRegion := some "global" }
        [] ⟨2025, 6, 1, 43200⟩).1 ⟨2025, 6, 1, 43200⟩).2 =
      (false, "duplicate_url") ∧
    (saveNewsItem "c1"
      { sourceUrl := some "https://n.org/b", title := some "T1",
        summary := some "s", eventType := some "Partnership",
        region := some "EUROPE", threatLevel := some 2, impact := none,
        date := some (some ⟨2025, 3, 1, 0⟩), searchRegion := some "global" }
      (saveNewsItem "c1"
        { sourceUrl := some "https://n.org/a", title := some "T1",
          summary := some "s", eventType := some "Partnership",
          region := some "EUROPE", threatLevel := some 9, impact := none,
          date := some (some ⟨2025, 3, 1, 0⟩), searchRegion := some "global" }
        [] ⟨2025, 6, 1, 43200⟩).1 ⟨2025, 6, 1, 43200⟩).2 =
      (false, "duplicate_title") ∧
    (∃ row, (saveNewsItem "c1"
      { sourceUrl := some "https://n.org/a", title := some "T1",
        summary := some "s", eventType := some "Partnership",
        region := some "EUROPE", threatLevel := some 9, impact := none,
        date := some (some ⟨2025, 3, 1, 0⟩), searchRegion := some "global" }
      [] ⟨2025, 6, 1, 43200⟩).1 = row :: [] ∧ row.threatLevel = 5) ∧
    saveNewsItem "c1"
      { sourceUrl := some "https://n.org/c", title := some "T2",
        summary := some "s", eventType := some "Partnership",
        region := some "EUROPE", threatLevel := some 2, impact := none,
        date := some (some ⟨2024, 6, 15, 0⟩), searchRegion := some "global" }
      [] ⟨2025, 6, 1, 43200⟩ = ([], false, "pre_2025") := by
  refine ⟨by decide, ?_, ?_, ?_, ?_⟩
  · exact c1_persistence_gate.2.1 "c1" _ [] ⟨2025, 6, 1, 43200⟩ (by decide)
  · exact c1_persistence_gate.2.2.1 "c1" _ _ [] ⟨2025, 6, 1, 43200⟩
      (by decide) (by decide) (by decide) (by decide) (by decide)
  · exact c1_persistence_gate.2.2.2.1 "c1" _ [] ⟨2025, 6, 1, 43200⟩
      (by decide) (by decide)
  · exact c1_persistence_gate.2.2.2.2 "c1" _ [] ⟨2025, 6, 1, 43200⟩
      ⟨2024, 6, 15, 0⟩ (by decide) (by decide) (by decide) (by decide)
      (by decide) (by decide) (by decide) (by decide)

/-- C2 counterexample: a `gemini_search` event dated 2024-06-15 — before
the 2025-01-01 cutoff — is accepted, but its date is stored unchanged
rather than coerced forward to the current time: the source only coerces
when the parsed year is below 2024. -/
theorem c2_counterexample_2024_date_kept :
    (saveNewsItem "c1"
      { sourceUrl := some "https://niche.org/story", title := some "Old story",
        summary := some "s", eventType := some "Partnership",
        region := some "EUROPE", threatLevel := some 3, impact := none,
        date := some (some ⟨2024, 6, 15, 0⟩),
        searchRegion := some "gemini_search" }
      [] ⟨2025, 6, 1, 43200⟩).2 = (true, "saved") ∧
    ((saveNewsItem "c1"
      { sourceUrl := some "https://niche.org/story", title := some "Old story",
        summary := some "s", eventType := some "Partnership",
        region := some "EUROPE", threatLevel := some 3, impact := none,
        date := some (some ⟨2024, 6, 15, 0⟩),
        searchRegion := some "gemini_search" }
      [] ⟨2025, 6, 1, 43200⟩).1.map (fun r => r.date)) = [⟨2024, 6, 15, 0⟩] ∧
    dtLtB ⟨2024, 6, 15, 0⟩ cutoff2025 = true ∧
    (⟨2024, 6, 15, 0⟩ : DateTime) ≠ ⟨2025, 6, 1, 43200⟩ := by
  decide

/-- C2 (amended): a `gemini_search` event dated before the 2025-01-01
cutoff is never rejected; it is inserted, and its date is coerced forward
to `now` only when the parsed year is below 2024 — a pre-cutoff date in
2024 is stored unchanged. -/
theorem c2_gemini_leniency (cid : String) (item : NewsItem)
    (store : NewsStore) (now : DateTime) (d : DateTime)
    (hdate : item.date = some (some d))
    (hcut : dtLtB d cutoff2025 = true)
    (hfut : dtLtB now d = false)
    (hregion : item.searchRegion = some "gemini_search")
    (hne : sanitizeText (item.sourceUrl.getD "") ≠ "")
    (hco : containsStr (sanitizeText (item.sourceUrl.getD "")) "example.com" = false)
    (hnodup : ¬checkExistingUrl store (sanitizeText (item.sourceUrl.getD "")))
    (hnotitle : ¬checkExistingTitle store cid
      (strTake (sanitizeText (item.title.getD "Untitled")) 200)) :
    ∃ row, saveNewsItem cid item store now = (row :: store, true, "saved") ∧
      row.date = (if d.year < 2024 then now else d) := by
  have hinv : ¬(sanitizeText (item.sourceUrl.getD "") = "" ∨
      containsStr (sanitizeText (item.sourceUrl.getD "")) "example.com" = true) := by
    rintro (h | h)
    · exact hne h
    · rw [hco] at h
      cases h
  have hinit : initialNewsDate item now = d := by
    simp [initialNewsDate, hdate]
  have hnf : ¬(dtLtB now d = true) := by
    intro hh
    rw [hfut] at hh
    exact Bool.false_ne_true hh
  have hnpre : ¬(dtLtB d cutoff2025 = true ∧
      item.searchRegion ≠ some "gemini_search") := by
    intro hh
    exact hh.2 hregion
  unfold saveNewsItem
  dsimp only
  rw [hinit, if_neg hinv, if_neg hnodup, if_neg hnotitle, if_neg hnf,
    if_neg hnpre]
  refine ⟨_, rfl, ?_⟩
  simp only [mkStoredNews, hcut, true_and]

/-- C2 witness: a `gemini_search` event dated 2023-03-03 (year below
2024) is accepted with its date coerced to `now`. -/
theorem c2_gemini_leniency_witness :
    ∃ row, saveNewsItem "c1"
      { sourceUrl := some "https://niche.org/old", title := some "Very old",
        summary := some "s", eventType := some "Partnership",
        region := some "EUROPE", threatLevel := some 3, impact := none,
        date := some (some ⟨2023, 3, 3, 0⟩),
        searchRegion := some "gemini_search" }
      [] ⟨2025, 6, 1, 43200⟩ = (row :: [], true, "saved") ∧
      row.date = ⟨2025, 6, 1, 43200⟩ := by
  obtain ⟨row, h1, h2⟩ := c2_gemini_leniency "c1"
    { sourceUrl := some "https://niche.org/old", title := some "Very old",
      summary := some "s", eventType := some "Partnership",
      region := some "EUROPE", threatLevel := some 3, impact := none,
      date := some (some ⟨2023, 3, 3, 0⟩),
      searchRegion := some "gemini_search" }
    [] ⟨2025, 6, 1, 43200⟩ ⟨2023, 3, 3, 0⟩ rfl (by decide) (by decide) rfl
    (by decide) (by decide) (by decide) (by decide)
  refine ⟨row, h1, ?_⟩
  rw [h2]
  decide

/-- C8: every event accepted by the (spec-modelled newer) Persistence
Gate is stored with a threat level in `[1, 5]`, and an impact score
present in the extracted item is clamped to `[0, 100]` and persisted on
the inserted row. -/
theorem c8_threat_and_impact_clamped (cid : String) (item : NewsItem)
    (store : NewsStore) (now : DateTime)
    (h : (saveNewsItemFull cid item store now).2.1 = true) :
    ∃ row, (saveNewsItemFull cid item store now).1 = row :: store ∧
      1 ≤ row.threatLevel ∧ row.threatLevel ≤ 5 ∧
      ∀ i : Int, item.impact = some i →
        row.impact = some (max 0 (min 100 i)) ∧
        0 ≤ max 0 (min 100 i) ∧ max 0 (min 100 i) ≤ 100 := by
  unfold saveNewsItemFull at h ⊢
  dsimp only at h ⊢
  split_ifs at h ⊢ with h1 h2 h3 h4 h5 h6 <;>
    first
      | exact absurd h Bool.false_ne_true
      | (refine ⟨_, rfl, le_max_left _ _,
          max_le (by norm_num) (min_le_left _ _), ?_⟩
         intro i hi
         exact ⟨by simp [mkStoredNews, hi], le_max_left _ _,
           max_le (by norm_num) (min_le_left _ _)⟩)

/-- C8 witness: a concrete accepted event with threat level 9 and impact
score 250 is stored with threat level in `[1, 5]` and impact 100. -/
theorem c8_threat_and_impact_clamped_witness :
    ∃ row, (saveNewsItemFull "c1"
      { sourceUrl := some "https://n.org/w", title := some "W",
        summary := some "s", eventType := some "Partnership",
        region := some "EUROPE", threatLevel := some 9, impact := some 250,
        date := some (some ⟨2025, 3, 1, 0⟩), searchRegion := some "global" }
      [] ⟨2025, 6, 1, 43200⟩).1 = row :: [] ∧
      1 ≤ row.threatLevel ∧ row.threatLevel ≤ 5 ∧ row.impact = some 100 := by
  obtain ⟨row, h1, h2, h3, h4⟩ := c8_threat_and_impact_clamped "c1"
    { sourceUrl := some "https://n.org/w", title := some "W",
      summary := some "s", eventType := some "Partnership",
      region := some "EUROPE", threatLevel := some 9, impact := some 250,
      date := some (some ⟨2025, 3, 1, 0⟩), searchRegion := some "global" }
    [] ⟨2025, 6, 1, 43200⟩ (by decide)
  refine ⟨row, h1, h2, h3, ?_⟩
  rw [(h4 250 rfl).1]
  decide

/-- C3: when candidate articles exist and the Extraction Engine returns
an (explicit) zero-item list, exactly one minimal low-confidence event is
synthesized — threat level 1, impact 10, event type "General Update",
built from the single best raw article — so such a run never hands zero
events to the Persistence Gate; when the model answers with the
no-relevant-news sentinel, zero events are produced and no fallback is
created. -/
theorem c3_fallback_of_last_resort :
    (∀ (a : Article) (rest : List Article),
      processCompetitorEvents (a :: rest) (AnalysisResult.items []) =
        [fallbackEvent a] ∧
      (fallbackEvent a).eventType = some "General Update" ∧
      (fallbackEvent a).threatLevel = some 1 ∧
      (fallbackEvent a).impact = some 10) ∧
    (∀ (a : Article) (rest : List Article) (l : List NewsItem),
      processCompetitorEvents (a :: rest) (AnalysisResult.items l) ≠ []) ∧
    (∀ articles : List Article,
      processCompetitorEvents articles AnalysisResult.noRelevant = []) := by
  refine ⟨?_, ?_, ?_⟩
  · intro a rest
    exact ⟨rfl, rfl, rfl, rfl⟩
  · intro a rest l
    cases l with
    | nil => simp [processCompetitorEvents]
    | cons x xs => simp [processCompetitorEvents]
  · intro articles
    cases articles <;> rfl

/-- C3 witness: a concrete single-article batch with an empty extraction
yields exactly the synthesized fallback event, and the sentinel yields
nothing. -/
theorem c3_fallback_of_last_resort_witness :
    processCompetitorEvents [⟨"Best article", "https://n.org/b", "snip"⟩]
      (AnalysisResult.items []) =
      [fallbackEvent ⟨"Best article", "https://n.org/b", "snip"⟩] ∧
    processCompetitorEvents [⟨"Best article", "https://n.org/b", "snip"⟩]
      (AnalysisResult.items []) ≠ [] ∧
    processCompetitorEvents [⟨"Best article", "https://n.org/b", "snip"⟩]
      AnalysisResult.noRelevant = [] := by
  refine ⟨?_, ?_, ?_⟩
  · exact (c3_fallback_of_last_resort.1 ⟨"Best article", "https://n.org/b", "snip"⟩ []).1
  · exact c3_fallback_of_last_resort.2.1 ⟨"Best article", "https://n.org/b", "snip"⟩ [] []
  · exact c3_fallback_of_last_resort.2.2 [⟨"Best article", "https://n.org/b", "snip"⟩]

/-- C4: the deep (domain-narrowed) Gemini search is not gated on the
keyword-search adapter returning zero results — `gather_all_articles`
launches it whenever the competitor has a website and merges its results
unconditionally.  Here Serper returns one article, yet the deep result
still appears in the output, contradicting the fallback-only contract
stated in the source's own docstrings. -/
theorem c4_deep_search_not_a_fallback :
    gatherAllArticles "https://acme.com"
      [⟨"serper hit", "https://s.com/x", "s1"⟩] []
      [⟨"deep hit", "https://d.com/y", "s2"⟩] =
      [⟨"serper hit", "https://s.com/x", "s1"⟩,
       ⟨"deep hit", "https://d.com/y", "s2"⟩] ∧
    ([⟨"serper hit", "https://s.com/x", "s1"⟩] : List Article) ≠ [] := by
  decide

/-- C5: the (spec-modelled) Aggregator output after URL liveness
validation — an article survives exactly when it survives the merge, its
URL path (ignoring a trailing slash) is not one of the generic root-level
paths, and the existence check did not return an explicit status of 400
or more; a network error (`none`) keeps the article (fail-open). -/
theorem c5_liveness_validation (website : String)
    (serper gemini deep : List Article) (check : String → Option Nat)
    (a : Article) :
    a ∈ gatherValidated website serper gemini deep check ↔
      (a ∈ gatherAllArticles website serper gemini deep ∧
       isGenericPath (urlPath a.link) = false ∧
       ∀ status : Nat, check a.link = some status → status < 400) := by
  unfold gatherValidated validateArticles
  rw [List.mem_filter]
  constructor
  · rintro ⟨hmem, halive⟩
    unfold articleAlive at halive
    rw [Bool.and_eq_true] at halive
    obtain ⟨hg, hc⟩ := halive
    refine ⟨hmem, by simpa using hg, ?_⟩
    intro status hstat
    rw [hstat] at hc
    simpa using hc
  · rintro ⟨hmem, hg, hc⟩
    refine ⟨hmem, ?_⟩
    unfold articleAlive
    rw [Bool.and_eq_true]
    refine ⟨by simp [hg], ?_⟩
    cases hcheck : check a.link with
    | none => rfl
    | some status => simpa using hc status hcheck

/-- C5 witness: a live article is kept, an unreachable article is kept
(fail-open), a generic `/blog` index is removed, and an article with an
explicit 404 is removed. -/
theorem c5_liveness_validation_witness :
    (⟨"kept", "https://n.org/2025/acme-wins", "s"⟩ : Article) ∈
      gatherValidated "" [⟨"kept", "https://n.org/2025/acme-wins", "s"⟩]
        [] [] (fun _ => some 200) ∧
    (⟨"flaky", "https://n.org/timeout", "s"⟩ : Article) ∈
      gatherValidated "" [⟨"flaky", "https://n.org/timeout", "s"⟩]
        [] [] (fun _ => none) ∧
    ¬((⟨"blog index", "https://n.org/blog/", "s"⟩ : Article) ∈
      gatherValidated "" [⟨"blog index", "https://n.org/blog/", "s"⟩]
        [] [] (fun _ => some 200)) ∧
    ¬((⟨"dead", "https://n.org/gone", "s"⟩ : Article) ∈
      gatherValidated "" [⟨"dead", "https://n.org/gone", "s"⟩]
        [] [] (fun _ => some 404)) := by
  refine ⟨?_, ?_, ?_, ?_⟩
  · refine (c5_liveness_validation _ _ _ _ _ _).mpr ⟨by decide, by decide, ?_⟩
    intro status hstat
    injection hstat with h
    omega
  · refine (c5_liveness_validation _ _ _ _ _ _).mpr ⟨by decide, by decide, ?_⟩
    intro status hstat
    exact Option.noConfusion hstat
  · intro hmem
    have h := ((c5_liveness_validation _ _ _ _ _ _).mp hmem).2.1
    exact absurd h (by decide)
  · intro hmem
    have h := ((c5_liveness_validation _ _ _ _ _ _).mp hmem).2.2 404 rfl
    omega

/-- C7: the time-window bucket token.  On the synchronous path every
Serper payload built by `search_news` for `days_back = 7` carries
`qdr:w`, and the bucket map sends 1 to `qdr:d`, 2..7 to `qdr:w`, 8..30 to
`qdr:m`, 31..365 to `qdr:y` and larger values to no restriction; but on
the asynchronous path (`search_news_async`, the one `gather_all_articles`
uses) every payload is sent with no `tbs` token at all — the `days_back`
argument is accepted and silently ignored. -/
theorem c7_async_path_drops_time_window :
    ([1, 2, 7, 8, 30, 31, 365, 366].map (fun n => tbsFor (some n))) =
      [some "qdr:d", some "qdr:w", some "qdr:w", some "qdr:m", some "qdr:m",
       some "qdr:y", some "qdr:y", none] ∧
    ((searchNewsRequests "Acme" ["global", "mena"] (some 7) none).map
      (fun r => r.tbs)) =
      List.replicate 8 (some "qdr:w") ∧
    ((searchNewsAsyncRequests "Acme" ["global", "mena"] (some 7) none).map
      (fun r => r.tbs)) = List.replicate 8 none := by
  decide

end MarketAnalyser
